import Mathlib

/-!
A shallow embedding of `src/sabre.js`, the CLI orchestrator of the sabre
analysis pipeline, together with theorems about its observable behaviour.

The orchestration file `src/sabre.js` is embedded directly.  The helper
modules it requires (`lib/client`, `lib/compiler`, `lib/report`) are not part
of the available sources; where their behaviour decides a property they are
modelled from the specification, and each such definition says so in its doc
comment.  External effects (file system, network, the remote analysis
service) are supplied as an explicit `World` record, and a whole run is the
pure function `sabreMain` from arguments, environment credentials and a
world to a `RunResult` recording the exit code, the printed output and the
data handed to the analysis client.
-/

namespace Sabre

/-- Command-line arguments as produced by the minimist call in
`src/sabre.js` lines 21-25: boolean flags `version`, `help`, `debug`
(`noCacheLookup` is irrelevant to the properties below and omitted for
brevity is not an option -- it is kept), string options `mode` and `format`
(defaults `quick` / `text` are applied by the parser, so here they are plain
fields), and the positional arguments `args._`. -/
structure Args where
  version : Bool
  help : Bool
  positional : List String
  mode : String
  format : String
  debug : Bool
  noCacheLookup : Bool
  clientToolName : Option String
deriving Repr, DecidableEq

/-- The slice of `compiler.getCompiledContracts` output that `sabre.js`
reads: only `contractName` is consulted by the orchestrator. -/
structure CompiledData where
  contractName : String
deriving Repr, DecidableEq

/-- A resolved source location of a finding. -/
structure Loc where
  filePath : String
  line : Nat
  column : Nat
deriving Repr, DecidableEq

/-- A raw finding as returned by the analysis service (spec section 3,
`RawIssue`): rule identifier, severity, an opaque location reference and a
message. -/
structure RawIssue where
  ruleId : String
  severity : Nat
  locationRef : Nat
  message : String
deriving Repr, DecidableEq

/-- A normalized finding (spec section 3, `CanonicalIssue`). -/
structure CanonicalIssue where
  ruleId : String
  severity : Nat
  filePath : String
  line : Nat
  column : Nat
  message : String
deriving Repr, DecidableEq

/-- Modelled from the spec: `lib/client.getRequestData` is not under the
available sources.  Per section 3 (`AnalysisRequest`) and section 4.5
(`RequestBuilder`) the payload carries the compiled artifact (here its
consulted part, the contract name), the ordered source list, the analysis
mode, the tool name and the cache policy.  The `sources` field models the
property of the payload object that line 161 of `sabre.js` later assigns;
the builder itself leaves it unset (`none`). -/
structure AnalysisRequest where
  contractName : String
  sourceList : List String
  mode : String
  toolName : Option String
  noCacheLookup : Bool
  sources : Option (List (String × String))
deriving Repr, DecidableEq

/-- Modelled from the spec: `lib/client.getRequestData` builds the
`AnalysisRequest` payload from the compiled data, the ordered source list
and the CLI options (spec section 4.5, a pure transformation). -/
def getRequestData (compiledData : CompiledData) (sourceList : List String)
    (args : Args) : AnalysisRequest :=
  { contractName := compiledData.contractName
    sourceList := sourceList
    mode := args.mode
    toolName := args.clientToolName
    noCacheLookup := args.noCacheLookup
    sources := none }

/-- The mode-dependent polling budget, `src/sabre.js` lines 136-145:
`quick` gets `20 * 1000` / `180 * 1000`, anything else (the validated
alternative being `full`) gets `300 * 1000` / `2400 * 1000`. -/
def delays (mode : String) : Nat × Nat :=
  if mode = "quick" then (20 * 1000, 180 * 1000)
  else (300 * 1000, 2400 * 1000)

/-- The valid analysis modes, `src/sabre.js` line 57. -/
def validModes : List String := ["quick", "full"]

/-- The valid output formats, `src/sabre.js` line 63. -/
def validFormats : List String :=
  ["stylish", "compact", "table", "html", "json", "text"]

/-- The trial identity address, `src/sabre.js` line 73. -/
def trialAddress : String := "0x0000000000000000000000000000000000000000"

/-- JavaScript string truthiness of an optional environment variable: an
unset variable (`undefined`) and the empty string are falsy, every other
string is truthy. -/
def truthy : Option String → Bool
  | none => false
  | some s => s ≠ ""

/-- `src/sabre.js` lines 72-75: when `!(ethAddress && password)` both
credentials are replaced by the built-in trial identity, otherwise the
environment-supplied values are kept. -/
def resolveCredentials (ethAddress password : Option String) :
    String × String :=
  if truthy ethAddress && truthy password then
    (ethAddress.getD "", password.getD "")
  else (trialAddress, "trial")

/-- The dedup key of a raw issue: its rule identifier together with its
resolved location (spec section 4.7). -/
def issueKey (resolve : RawIssue → Loc) (r : RawIssue) : String × Loc :=
  (r.ruleId, resolve r)

/-- Modelled from the spec: the dedup pass of `lib/report.formatIssues`
(spec section 4.7, `IssueNormalizer`): walk the raw issues keeping the
first occurrence of every `(ruleId, resolved location)` key and dropping
later duplicates; `seen` is the set of keys already emitted. -/
def dedupIssues (resolve : RawIssue → Loc) :
    List RawIssue → List (String × Loc) → List RawIssue
  | [], _ => []
  | r :: rest, seen =>
    if issueKey resolve r ∈ seen then dedupIssues resolve rest seen
    else r :: dedupIssues resolve rest (issueKey resolve r :: seen)

/-- Resolution of a raw issue into its canonical form via the source-map
resolution function (spec section 4.7). -/
def toCanonical (resolve : RawIssue → Loc) (r : RawIssue) : CanonicalIssue :=
  { ruleId := r.ruleId
    severity := r.severity
    filePath := (resolve r).filePath
    line := (resolve r).line
    column := (resolve r).column
    message := r.message }

/-- The sort order of canonical issues: by file path, then line, then
column ascending (spec section 3). -/
def issueLe (a b : CanonicalIssue) : Bool :=
  if a.filePath = b.filePath then
    if a.line = b.line then a.column ≤ b.column
    else a.line < b.line
  else a.filePath < b.filePath

/-- Stable insertion of one canonical issue into an already-sorted list:
on ties the incumbent stays first, preserving arrival order. -/
def insertIssue (a : CanonicalIssue) :
    List CanonicalIssue → List CanonicalIssue
  | [] => [a]
  | b :: t => if issueLe b a then b :: insertIssue a t else a :: b :: t

/-- Stable sort of canonical issues by `issueLe`. -/
def sortIssues (l : List CanonicalIssue) : List CanonicalIssue :=
  l.foldl (fun acc a => insertIssue a acc) []

/-- Modelled from the spec: `lib/report.formatIssues` is not under the
available sources.  Per spec section 4.7 it resolves every raw issue to a
location, deduplicates on `(ruleId, resolved location)` keeping the first
occurrence, and sorts the canonical result. -/
def formatIssues (resolve : RawIssue → Loc) (issues : List RawIssue) :
    List CanonicalIssue :=
  sortIssues ((dedupIssues resolve issues []).map (toCanonical resolve))

/-- Modelled from the spec: the selected `lib/report` formatter rendering a
canonical issue list (spec section 1 treats the templating as an external
collaborator, out of scope); represented abstractly by format name and
issue count. -/
def renderIssues (fmt : String) (issues : List CanonicalIssue) : String :=
  fmt ++ ": " ++ toString issues.length ++ " issues"

/-- The external world of one invocation: the results the orchestrator
observes from the file system (`fs.readFileSync`), the compiler loader
(`compiler.loadSolcVersion`), import resolution
(`Profiler.resolveAllSources`, an ordered mapping of logical path to file
body), compilation (`compiler.getCompiledContracts`), the analysis service
(`client.getMythXReport`, a promise yielding the raw issues or rejecting
with an error string), the solc version string extracted from the pragma,
and the source-map resolution used during issue normalization. -/
structure World where
  fileContent : Except String String
  loadSolc : Except String Unit
  resolved : Except String (List (String × String))
  compileResult : Except String CompiledData
  analysisIssues : Except String (List RawIssue)
  version : String
  resolveLoc : RawIssue → Loc

/-- The observable outcome of one run of `sabre.js`: the process exit code
(the argument of an explicit `process.exit`, or `0` when the script ends
and the event loop drains), the printed lines in order, the compiler input
sources (`getSolcInput` argument), the payload value at the moment
`client.getMythXReport` is invoked together with the `initialDelay` and
`timeout` passed with it, and the payload value at the moment
`report.formatIssues` consumes it. -/
structure RunResult where
  exitCode : Int
  output : List String
  compilerInput : Option (List (String × String))
  dataAtSubmission : Option AnalysisRequest
  analysisCall : Option (AnalysisRequest × Nat × Nat)
  dataAtFormat : Option AnalysisRequest

/-- The version string printed by `--version`; the package manifest is not
part of the embedded sources, so the value is uninterpreted. -/
def pkgVersion : String := "package-version"

/-- The help text of `src/sabre.js` lines 27-41 (abridged to its first
line; its exact content decides no property below). -/
def helpText : String :=
  "Minimum viable CLI for the MythX security analysis platform."

/-- `src/sabre.js` line 58. -/
def invalidModeMsg : String :=
  "Invalid analysis mode. Please use either \"quick\" or \"full\"."

/-- `src/sabre.js` line 64. -/
def invalidFormatMsg : String :=
  "Invalid output format. Please use \"stylish\", \"compact\", \"table\", \"html\" or \"json\"."

/-- One whole run of `src/sabre.js`, in source order: the `--version` and
help/empty-argument early exits (lines 43-55), mode and format validation
(lines 57-67), the credential fallback (lines 72-75), reading the entry
file (lines 79-85), loading the compiler snapshot (lines 100-103 and the
catch at 193-197), resolving all imports (lines 106-112 and the catch at
187-191), building the compiler input (line 115), compiling (lines
117-125), building the request payload and the mode-dependent budget
(lines 129-145), the debug echo (lines 147-151), the analysis call with
its catch handler (lines 155-185), the post-resolution `data.sources`
assignment (line 161), and the issue formatting and final reporting (lines
170-179). -/
def sabreMain (args : Args) (ethAddress password : Option String)
    (w : World) : RunResult :=
  if args.version = true then
    { exitCode := 0, output := [pkgVersion], compilerInput := none
      dataAtSubmission := none, analysisCall := none, dataAtFormat := none }
  else if args.positional = [] ∨ args.help = true then
    { exitCode := 0, output := [helpText], compilerInput := none
      dataAtSubmission := none, analysisCall := none, dataAtFormat := none }
  else if args.mode ∉ validModes then
    { exitCode := -1, output := [invalidModeMsg], compilerInput := none
      dataAtSubmission := none, analysisCall := none, dataAtFormat := none }
  else if args.format ∉ validFormats then
    { exitCode := -1, output := [invalidFormatMsg], compilerInput := none
      dataAtSubmission := none, analysisCall := none, dataAtFormat := none }
  else
    let _creds := resolveCredentials ethAddress password
    match w.fileContent with
    | Except.error msg =>
      { exitCode := -1, output := ["Error opening input file " ++ msg]
        compilerInput := none, dataAtSubmission := none
        analysisCall := none, dataAtFormat := none }
    | Except.ok _solidityCode =>
      match w.loadSolc with
      | Except.error msg =>
        { exitCode := 0
          output := ["Compilation with solc v" ++ w.version ++ " failed", msg]
          compilerInput := none, dataAtSubmission := none
          analysisCall := none, dataAtFormat := none }
      | Except.ok _ =>
        match w.resolved with
        | Except.error msg =>
          { exitCode := 0, output := ["Resolving imports failed", msg]
            compilerInput := none, dataAtSubmission := none
            analysisCall := none, dataAtFormat := none }
        | Except.ok resolved =>
          let sourceList := resolved.map Prod.fst
          let allSources :=
            sourceList.map (fun file => (file, ((resolved.lookup file).getD "")))
          match w.compileResult with
          | Except.error e =>
            { exitCode := 1, output := [e]
              compilerInput := some allSources, dataAtSubmission := none
              analysisCall := none, dataAtFormat := none }
          | Except.ok compiledData =>
            let data := getRequestData compiledData sourceList args
            let ds := delays args.mode
            let debugOut :=
              if args.debug = true then
                ["-------------------", "MythX Request Body:"]
              else []
            match w.analysisIssues with
            | Except.error err =>
              { exitCode := 0
                output :=
                  ["Compiled with solc v" ++ w.version ++ " successfully"]
                    ++ debugOut ++ ["Analysis failed", err]
                compilerInput := some allSources
                dataAtSubmission := some data
                analysisCall := some (data, ds.1, ds.2)
                dataAtFormat := none }
            | Except.ok issues =>
              let data2 := { data with sources := some allSources }
              let uniqueIssues := formatIssues w.resolveLoc issues
              if uniqueIssues.length = 0 then
                { exitCode := 0
                  output :=
                    ["Compiled with solc v" ++ w.version ++ " successfully"]
                      ++ debugOut
                      ++ ["✔ No errors/warnings found in "
                            ++ args.positional.headD ""
                            ++ " for contract: " ++ compiledData.contractName]
                  compilerInput := some allSources
                  dataAtSubmission := some data
                  analysisCall := some (data, ds.1, ds.2)
                  dataAtFormat := some data2 }
              else
                { exitCode := 0
                  output :=
                    ["Compiled with solc v" ++ w.version ++ " successfully"]
                      ++ debugOut
                      ++ [renderIssues args.format uniqueIssues]
                  compilerInput := some allSources
                  dataAtSubmission := some data
                  analysisCall := some (data, ds.1, ds.2)
                  dataAtFormat := some data2 }

/-- The arguments of a plain successful invocation, used as concrete
input in witnesses. -/
def aOk : Args :=
  { version := false, help := false, positional := ["token.sol"]
    mode := "quick", format := "text", debug := false
    noCacheLookup := false, clientToolName := none }

/-- A world in which every external step succeeds and the service returns
no findings, used as concrete input in witnesses. -/
def wOk : World :=
  { fileContent := Except.ok "pragma solidity ^0.5.0;"
    loadSolc := Except.ok ()
    resolved := Except.ok [("token.sol", "pragma solidity ^0.5.0;")]
    compileResult := Except.ok { contractName := "Token" }
    analysisIssues := Except.ok []
    version := "0.5.0"
    resolveLoc := fun _ => { filePath := "token.sol", line := 0, column := 0 } }

/-- C10: if either credential environment variable is unset, both
credentials are replaced by the built-in trial identity (the all-zero
address and password "trial"); and whenever the resolved credentials are
not the trial identity, both environment variables were set. -/
theorem credentials_trial_fallback (a p : Option String) :
    ((a = none ∨ p = none) →
      resolveCredentials a p = (trialAddress, "trial")) ∧
    (resolveCredentials a p ≠ (trialAddress, "trial") →
      a.isSome ∧ p.isSome) := by
  rcases a with _ | x <;> rcases p with _ | y <;>
    simp [resolveCredentials, truthy]

/-- Witness for C10 at the concrete point a = none, p = some "hunter2". -/
theorem credentials_trial_fallback_witness :
    resolveCredentials none (some "hunter2") = (trialAddress, "trial") :=
  (credentials_trial_fallback none (some "hunter2")).1 (Or.inl rfl)

/-- C1: for every invocation that reaches the analysis submission (valid
arguments, readable entry file, loaded compiler, resolved imports,
successful compilation), the polling budget passed to the analysis client
is determined by the mode: quick gives initialDelay 20000 ms and timeout
180000 ms, full gives initialDelay 300000 ms and timeout 2400000 ms. -/
theorem mode_determines_budget (args : Args) (e p : Option String)
    (w : World) (code : String) (resolved : List (String × String))
    (cd : CompiledData)
    (hv : args.version = false) (hh : args.help = false)
    (hne : args.positional ≠ []) (hm : args.mode ∈ validModes)
    (hf : args.format ∈ validFormats)
    (hfile : w.fileContent = Except.ok code)
    (hload : w.loadSolc = Except.ok ())
    (hres : w.resolved = Except.ok resolved)
    (hcomp : w.compileResult = Except.ok cd) :
    (args.mode = "quick" →
      ∃ d, (sabreMain args e p w).analysisCall = some (d, 20000, 180000)) ∧
    (args.mode = "full" →
      ∃ d, (sabreMain args e p w).analysisCall = some (d, 300000, 2400000)) := by
  constructor <;> intro hmode <;>
    refine ⟨getRequestData cd (resolved.map Prod.fst) args, ?_⟩ <;>
      rcases hiss : w.analysisIssues with err | issues
  · simp [sabreMain, hv, hh, hne, hm, hf, hfile, hload, hres, hcomp, hiss,
      hmode, delays, validModes]
  · by_cases hlen : (formatIssues w.resolveLoc issues).length = 0 <;>
      simp [sabreMain, hv, hh, hne, hm, hf, hfile, hload, hres, hcomp, hiss,
        hmode, delays, hlen, validModes]
  · simp [sabreMain, hv, hh, hne, hm, hf, hfile, hload, hres, hcomp, hiss,
      hmode, delays, validModes]
  · by_cases hlen : (formatIssues w.resolveLoc issues).length = 0 <;>
      simp [sabreMain, hv, hh, hne, hm, hf, hfile, hload, hres, hcomp, hiss,
        hmode, delays, hlen, validModes]

/-- Witness for C1 at a concrete quick-mode run. -/
theorem mode_determines_budget_witness :
    (aOk.mode = "quick" →
      ∃ d, (sabreMain aOk none none wOk).analysisCall = some (d, 20000, 180000)) ∧
    (aOk.mode = "full" →
      ∃ d, (sabreMain aOk none none wOk).analysisCall = some (d, 300000, 2400000)) :=
  mode_determines_budget aOk none none wOk "pragma solidity ^0.5.0;"
    [("token.sol", "pragma solidity ^0.5.0;")] { contractName := "Token" }
    rfl rfl (by decide) (by decide) (by decide) rfl rfl rfl rfl

/-- C2: when compilation of the entry file reports an error, the process
exits with code 1, the compiler diagnostic text is printed, and the
analysis client is never invoked (no payload is built or submitted). -/
theorem compile_error_behaviour (args : Args) (e p : Option String)
    (w : World) (msg code : String) (resolved : List (String × String))
    (hv : args.version = false) (hh : args.help = false)
    (hne : args.positional ≠ []) (hm : args.mode ∈ validModes)
    (hf : args.format ∈ validFormats)
    (hfile : w.fileContent = Except.ok code)
    (hload : w.loadSolc = Except.ok ())
    (hres : w.resolved = Except.ok resolved)
    (hcomp : w.compileResult = Except.error msg) :
    (sabreMain args e p w).exitCode = 1 ∧
    msg ∈ (sabreMain args e p w).output ∧
    (sabreMain args e p w).analysisCall = none ∧
    (sabreMain args e p w).dataAtSubmission = none := by
  simp [sabreMain, hv, hh, hne, hm, hf, hfile, hload, hres, hcomp]

/-- A world whose compilation step fails, for the C2 witness. -/
def wCompErr : World :=
  { wOk with compileResult := Except.error "ParserError: expected pragma" }

/-- Witness for C2 at a concrete run with a failing compilation. -/
theorem compile_error_behaviour_witness :
    (sabreMain aOk none none wCompErr).exitCode = 1 ∧
    "ParserError: expected pragma" ∈ (sabreMain aOk none none wCompErr).output ∧
    (sabreMain aOk none none wCompErr).analysisCall = none ∧
    (sabreMain aOk none none wCompErr).dataAtSubmission = none :=
  compile_error_behaviour aOk none none wCompErr "ParserError: expected pragma"
    "pragma solidity ^0.5.0;" [("token.sol", "pragma solidity ^0.5.0;")]
    rfl rfl (by decide) (by decide) (by decide) rfl rfl rfl rfl

/-- Arguments with an invalid mode and no entry file, for the C3
counterexample. -/
def aBadModeNoFile : Args :=
  { aOk with mode := "bogus", positional := [] }

/-- C3 counterexample: an invocation whose mode is outside the valid set
but which supplies no entry file prints the help text and exits 0, not -1
with an error message, because the help/empty-argument check precedes
mode validation. -/
theorem arg_validation_counterexample :
    aBadModeNoFile.mode ∉ validModes ∧
    (sabreMain aBadModeNoFile none none wOk).exitCode = 0 ∧
    (sabreMain aBadModeNoFile none none wOk).output = [helpText] :=
  ⟨by decide, rfl, rfl⟩

/-- C3 amended: for every invocation that supplies at least one entry-file
argument and requests neither version nor help, an invalid mode, an
invalid format (with valid mode), or an unreadable entry file (with valid
mode and format) each print an error message and exit with code -1 without
any later pipeline stage running. -/
theorem arg_validation_amended (args : Args) (e p : Option String)
    (w : World)
    (hv : args.version = false) (hh : args.help = false)
    (hne : args.positional ≠ []) :
    (args.mode ∉ validModes →
      (sabreMain args e p w).exitCode = -1 ∧
      (sabreMain args e p w).output = [invalidModeMsg] ∧
      (sabreMain args e p w).compilerInput = none ∧
      (sabreMain args e p w).analysisCall = none) ∧
    (args.mode ∈ validModes → args.format ∉ validFormats →
      (sabreMain args e p w).exitCode = -1 ∧
      (sabreMain args e p w).output = [invalidFormatMsg] ∧
      (sabreMain args e p w).compilerInput = none ∧
      (sabreMain args e p w).analysisCall = none) ∧
    (args.mode ∈ validModes → args.format ∈ validFormats →
      ∀ msg, w.fileContent = Except.error msg →
        (sabreMain args e p w).exitCode = -1 ∧
        (sabreMain args e p w).output = ["Error opening input file " ++ msg] ∧
        (sabreMain args e p w).compilerInput = none ∧
        (sabreMain args e p w).analysisCall = none) := by
  refine ⟨fun hm => ?_, fun hm hf => ?_, fun hm hf msg hfile => ?_⟩
  · simp [sabreMain, hv, hh, hne, hm]
  · simp [sabreMain, hv, hh, hne, hm, hf]
  · simp [sabreMain, hv, hh, hne, hm, hf, hfile]

/-- Witness for the C3 amendment at a concrete invalid-mode invocation. -/
theorem arg_validation_amended_witness :
    (({ aOk with mode := "bogus" } : Args).mode ∉ validModes →
      (sabreMain { aOk with mode := "bogus" } none none wOk).exitCode = -1 ∧
      (sabreMain { aOk with mode := "bogus" } none none wOk).output = [invalidModeMsg] ∧
      (sabreMain { aOk with mode := "bogus" } none none wOk).compilerInput = none ∧
      (sabreMain { aOk with mode := "bogus" } none none wOk).analysisCall = none) ∧
    (({ aOk with mode := "bogus" } : Args).mode ∈ validModes →
      ({ aOk with mode := "bogus" } : Args).format ∉ validFormats →
      (sabreMain { aOk with mode := "bogus" } none none wOk).exitCode = -1 ∧
      (sabreMain { aOk with mode := "bogus" } none none wOk).output = [invalidFormatMsg] ∧
      (sabreMain { aOk with mode := "bogus" } none none wOk).compilerInput = none ∧
      (sabreMain { aOk with mode := "bogus" } none none wOk).analysisCall = none) ∧
    (({ aOk with mode := "bogus" } : Args).mode ∈ validModes →
      ({ aOk with mode := "bogus" } : Args).format ∈ validFormats →
      ∀ msg, wOk.fileContent = Except.error msg →
        (sabreMain { aOk with mode := "bogus" } none none wOk).exitCode = -1 ∧
        (sabreMain { aOk with mode := "bogus" } none none wOk).output = ["Error opening input file " ++ msg] ∧
        (sabreMain { aOk with mode := "bogus" } none none wOk).compilerInput = none ∧
        (sabreMain { aOk with mode := "bogus" } none none wOk).analysisCall = none) :=
  arg_validation_amended { aOk with mode := "bogus" } none none wOk
    rfl rfl (by decide)

/-- C4 counterexample: on a concrete successful run the payload value
consumed by issue formatting differs from the payload value at submission,
because line 161 of `sabre.js` assigns `data.sources` after the analysis
promise resolves: the request is mutated after submission. -/
theorem request_mutation_counterexample :
    (sabreMain aOk none none wOk).dataAtSubmission ≠
    (sabreMain aOk none none wOk).dataAtFormat := by decide

/-- C4 amended: the payload is built once per invocation and, after the
analysis resolves, is mutated exactly once before formatting: its sources
field, unset at submission, is overwritten with the compiler-input source
mapping; every other field is unchanged after submission. -/
theorem request_post_submission_delta (args : Args) (e p : Option String)
    (w : World) (code : String) (resolved : List (String × String))
    (cd : CompiledData) (issues : List RawIssue)
    (req req2 : AnalysisRequest)
    (hv : args.version = false) (hh : args.help = false)
    (hne : args.positional ≠ []) (hm : args.mode ∈ validModes)
    (hf : args.format ∈ validFormats)
    (hfile : w.fileContent = Except.ok code)
    (hload : w.loadSolc = Except.ok ())
    (hres : w.resolved = Except.ok resolved)
    (hcomp : w.compileResult = Except.ok cd)
    (hiss : w.analysisIssues = Except.ok issues)
    (h1 : (sabreMain args e p w).dataAtSubmission = some req)
    (h2 : (sabreMain args e p w).dataAtFormat = some req2) :
    req2.contractName = req.contractName ∧
    req2.sourceList = req.sourceList ∧
    req2.mode = req.mode ∧
    req2.toolName = req.toolName ∧
    req2.noCacheLookup = req.noCacheLookup ∧
    req.sources = none ∧
    req2.sources = (sabreMain args e p w).compilerInput := by
  by_cases hlen : (formatIssues w.resolveLoc issues).length = 0 <;>
    simp only [sabreMain, hv, hh, hne, hm, hf, hfile, hload, hres, hcomp,
      hiss, hlen, getRequestData] at h1 h2 ⊢ <;>
    simp_all [sabreMain, hv, hh, hne, hm, hf, hfile, hload, hres, hcomp,
      hiss, hlen, getRequestData] <;>
    simp [← h1, ← h2]

/-- The payload value at submission in the concrete run `sabreMain aOk
none none wOk`. -/
def reqAtSubmission : AnalysisRequest :=
  getRequestData { contractName := "Token" } ["token.sol"] aOk

/-- The payload value at formatting time in the same concrete run. -/
def reqAtFormat : AnalysisRequest :=
  { reqAtSubmission with
      sources := some [("token.sol", "pragma solidity ^0.5.0;")] }

/-- Witness for the C4 amendment at a concrete successful run. -/
theorem request_post_submission_delta_witness :
    (reqAtFormat.contractName = reqAtSubmission.contractName ∧
      reqAtFormat.sourceList = reqAtSubmission.sourceList ∧
      reqAtFormat.mode = reqAtSubmission.mode ∧
      reqAtFormat.toolName = reqAtSubmission.toolName ∧
      reqAtFormat.noCacheLookup = reqAtSubmission.noCacheLookup ∧
      reqAtSubmission.sources = none ∧
      reqAtFormat.sources = (sabreMain aOk none none wOk).compilerInput) :=
  request_post_submission_delta aOk none none wOk "pragma solidity ^0.5.0;"
    [("token.sol", "pragma solidity ^0.5.0;")] { contractName := "Token" } []
    reqAtSubmission reqAtFormat
    rfl rfl (by decide) (by decide) (by decide) rfl rfl rfl rfl rfl
    (by decide) (by decide)

/-- A world whose analysis promise rejects, for C5 and C9. -/
def wAnalysisErr : World :=
  { wOk with analysisIssues := Except.error "MythX rejected the submission" }

/-- C5 counterexample: on a concrete run whose analysis promise rejects,
the process reports the failure but terminates with exit code 0 -- the
catch handler at lines 181-185 of `sabre.js` only logs and never calls
`process.exit`. -/
theorem analysis_failure_exit_counterexample :
    (sabreMain aOk none none wAnalysisErr).exitCode = 0 ∧
    "Analysis failed" ∈ (sabreMain aOk none none wAnalysisErr).output :=
  ⟨rfl, by decide⟩

/-- C5 amended: when the analysis promise rejects, the process prints the
failure banner and the error and terminates with exit code 0 (no explicit
nonzero exit is performed). -/
theorem analysis_failure_amended (args : Args) (e p : Option String)
    (w : World) (code : String) (resolved : List (String × String))
    (cd : CompiledData) (err : String)
    (hv : args.version = false) (hh : args.help = false)
    (hne : args.positional ≠ []) (hm : args.mode ∈ validModes)
    (hf : args.format ∈ validFormats)
    (hfile : w.fileContent = Except.ok code)
    (hload : w.loadSolc = Except.ok ())
    (hres : w.resolved = Except.ok resolved)
    (hcomp : w.compileResult = Except.ok cd)
    (hfail : w.analysisIssues = Except.error err) :
    (sabreMain args e p w).exitCode = 0 ∧
    "Analysis failed" ∈ (sabreMain args e p w).output ∧
    err ∈ (sabreMain args e p w).output := by
  simp [sabreMain, hv, hh, hne, hm, hf, hfile, hload, hres, hcomp, hfail]

/-- Witness for the C5 amendment at a concrete failing analysis. -/
theorem analysis_failure_amended_witness :
    (sabreMain aOk none none wAnalysisErr).exitCode = 0 ∧
    "Analysis failed" ∈ (sabreMain aOk none none wAnalysisErr).output ∧
    "MythX rejected the submission" ∈ (sabreMain aOk none none wAnalysisErr).output :=
  analysis_failure_amended aOk none none wAnalysisErr
    "pragma solidity ^0.5.0;" [("token.sol", "pragma solidity ^0.5.0;")]
    { contractName := "Token" } "MythX rejected the submission"
    rfl rfl (by decide) (by decide) (by decide) rfl rfl rfl rfl rfl

/-- C6: a successful analysis whose normalized issue list is empty prints
the success message naming the entry-file argument and the selected
contract name, and the process exits with code 0. -/
theorem no_findings_success (args : Args) (e p : Option String) (w : World)
    (code : String) (resolved : List (String × String)) (cd : CompiledData)
    (issues : List RawIssue)
    (hv : args.version = false) (hh : args.help = false)
    (hne : args.positional ≠ []) (hm : args.mode ∈ validModes)
    (hf : args.format ∈ validFormats)
    (hfile : w.fileContent = Except.ok code)
    (hload : w.loadSolc = Except.ok ())
    (hres : w.resolved = Except.ok resolved)
    (hcomp : w.compileResult = Except.ok cd)
    (hiss : w.analysisIssues = Except.ok issues)
    (hempty : formatIssues w.resolveLoc issues = []) :
    (sabreMain args e p w).exitCode = 0 ∧
    ("✔ No errors/warnings found in " ++ args.positional.headD ""
      ++ " for contract: " ++ cd.contractName) ∈ (sabreMain args e p w).output := by
  simp [sabreMain, hv, hh, hne, hm, hf, hfile, hload, hres, hcomp, hiss,
    hempty]

/-- Witness for C6 at a concrete zero-findings run. -/
theorem no_findings_success_witness :
    (sabreMain aOk none none wOk).exitCode = 0 ∧
    ("✔ No errors/warnings found in " ++ aOk.positional.headD ""
      ++ " for contract: "
      ++ ({ contractName := "Token" } : CompiledData).contractName)
      ∈ (sabreMain aOk none none wOk).output :=
  no_findings_success aOk none none wOk "pragma solidity ^0.5.0;"
    [("token.sol", "pragma solidity ^0.5.0;")] { contractName := "Token" } []
    rfl rfl (by decide) (by decide) (by decide) rfl rfl rfl rfl rfl rfl

/-- Inserting an element whose dedup key is already in `seen`, or is the
key of an earlier element of the list, does not change the dedup pass. -/
theorem dedup_drop_dup (resolve : RawIssue → Loc) (y : RawIssue)
    (l l3 : List RawIssue) (seen : List (String × Loc))
    (h : issueKey resolve y ∈ seen ∨
      ∃ z ∈ l, issueKey resolve z = issueKey resolve y) :
    dedupIssues resolve (l ++ y :: l3) seen =
      dedupIssues resolve (l ++ l3) seen := by
  induction l generalizing seen with
  | nil =>
    rcases h with h | ⟨z, hz, _⟩
    · simp [dedupIssues, h]
    · simp at hz
  | cons a l ih =>
    simp only [List.cons_append, dedupIssues]
    by_cases ha : issueKey resolve a ∈ seen
    · rw [if_pos ha, if_pos ha]
      apply ih
      rcases h with h | ⟨z, hz, hkey⟩
      · exact Or.inl h
      · rcases List.mem_cons.mp hz with hz1 | hz2
        · have hay : issueKey resolve a = issueKey resolve y := by
            rw [← hz1]; exact hkey
          exact Or.inl (hay ▸ ha)
        · exact Or.inr ⟨z, hz2, hkey⟩
    · rw [if_neg ha, if_neg ha]
      congr 1
      apply ih
      rcases h with h | ⟨z, hz, hkey⟩
      · exact Or.inl (List.mem_cons_of_mem _ h)
      · rcases List.mem_cons.mp hz with hz1 | hz2
        · have hay : issueKey resolve a = issueKey resolve y := by
            rw [← hz1]; exact hkey
          exact Or.inl (by rw [← hay]; exact List.mem_cons_self _ _)
        · exact Or.inr ⟨z, hz2, hkey⟩

/-- C7: issue normalization is deduplication-idempotent: a raw issue
sequence containing an exact duplicate (an element whose rule identifier
and resolved location equal those of an earlier element) normalizes to the
same canonical issue list as the sequence with the duplicate removed. -/
theorem formatIssues_dedup_idempotent (resolve : RawIssue → Loc)
    (l1 l2 l3 : List RawIssue) (x y : RawIssue)
    (h : issueKey resolve x = issueKey resolve y) :
    formatIssues resolve (l1 ++ x :: l2 ++ y :: l3) =
      formatIssues resolve (l1 ++ x :: l2 ++ l3) := by
  unfold formatIssues
  have hd : dedupIssues resolve (l1 ++ x :: l2 ++ y :: l3) [] =
      dedupIssues resolve (l1 ++ x :: l2 ++ l3) [] := by
    have e1 : l1 ++ x :: l2 ++ y :: l3 = (l1 ++ x :: l2) ++ y :: l3 := by
      simp
    have e2 : l1 ++ x :: l2 ++ l3 = (l1 ++ x :: l2) ++ l3 := by simp
    rw [e1, e2]
    exact dedup_drop_dup resolve y (l1 ++ x :: l2) l3 []
      (Or.inr ⟨x, by simp, h⟩)
  rw [hd]

/-- A sample raw issue for the C7 witness. -/
def issueA : RawIssue :=
  { ruleId := "SWC-101", severity := 2, locationRef := 0
    message := "Integer Overflow" }

/-- Witness for C7: two identical raw issues collapse to the same
normalized output as a single one. -/
theorem formatIssues_dedup_idempotent_witness :
    issueKey wOk.resolveLoc issueA = issueKey wOk.resolveLoc issueA ∧
    formatIssues wOk.resolveLoc ([] ++ issueA :: [] ++ issueA :: []) =
      formatIssues wOk.resolveLoc ([] ++ issueA :: [] ++ []) :=
  ⟨rfl, formatIssues_dedup_idempotent wOk.resolveLoc [] [] [] issueA issueA
    rfl⟩

/-- The key order of the compiler-input source mapping built from the
resolved sources is exactly the resolved source list. -/
theorem map_fst_allSources (resolved : List (String × String)) :
    (List.map (fun file => (file, ((resolved.lookup file).getD "")))
      (resolved.map Prod.fst)).map Prod.fst = resolved.map Prod.fst := by
  simp [List.map_map, Function.comp_def]

/-- C8: for every invocation that reaches the request build, the ordered
sourceList placed in the analysis payload and the key order of the source
mapping handed to the compiler are the same list -- the key order of the
resolved source mapping. -/
theorem request_sourceList_matches_input (args : Args) (e p : Option String)
    (w : World) (code : String) (resolved : List (String × String))
    (cd : CompiledData)
    (hv : args.version = false) (hh : args.help = false)
    (hne : args.positional ≠ []) (hm : args.mode ∈ validModes)
    (hf : args.format ∈ validFormats)
    (hfile : w.fileContent = Except.ok code)
    (hload : w.loadSolc = Except.ok ())
    (hres : w.resolved = Except.ok resolved)
    (hcomp : w.compileResult = Except.ok cd) :
    (sabreMain args e p w).analysisCall.map (fun c => c.1.sourceList) =
      some (resolved.map Prod.fst) ∧
    (sabreMain args e p w).compilerInput.map (fun l => l.map Prod.fst) =
      some (resolved.map Prod.fst) := by
  rcases hiss : w.analysisIssues with err | issues
  · simp [sabreMain, hv, hh, hne, hm, hf, hfile, hload, hres, hcomp, hiss,
      getRequestData, List.map_map, Function.comp_def]
  · by_cases hlen : (formatIssues w.resolveLoc issues).length = 0 <;>
      simp [sabreMain, hv, hh, hne, hm, hf, hfile, hload, hres, hcomp, hiss,
        hlen, getRequestData, List.map_map, Function.comp_def]

/-- Witness for C8 at a concrete run. -/
theorem request_sourceList_matches_input_witness :
    (sabreMain aOk none none wOk).analysisCall.map (fun c => c.1.sourceList) =
      some ([("token.sol", "pragma solidity ^0.5.0;")].map Prod.fst) ∧
    (sabreMain aOk none none wOk).compilerInput.map (fun l => l.map Prod.fst) =
      some ([("token.sol", "pragma solidity ^0.5.0;")].map Prod.fst) :=
  request_sourceList_matches_input aOk none none wOk
    "pragma solidity ^0.5.0;" [("token.sol", "pragma solidity ^0.5.0;")]
    { contractName := "Token" }
    rfl rfl (by decide) (by decide) (by decide) rfl rfl rfl rfl

/-- C9 counterexample: a rejection standing for an elapsed deadline is
reported exactly like any other analysis error -- the output is the
generic "Analysis failed" banner followed by the raw error text in both
runs, with no distinct timedOut guidance to retry or check later. -/
theorem timeout_report_counterexample :
    (sabreMain aOk none none
        { wOk with analysisIssues := Except.error "deadline elapsed" }).output =
      ["Compiled with solc v0.5.0 successfully", "Analysis failed",
        "deadline elapsed"] ∧
    (sabreMain aOk none none wAnalysisErr).output =
      ["Compiled with solc v0.5.0 successfully", "Analysis failed",
        "MythX rejected the submission"] :=
  ⟨rfl, rfl⟩

/-- C9 amended: whatever error the analysis promise rejects with -- an
elapsed deadline included -- the report to the user is uniform: the
spinner fails with the banner "Analysis failed" and the raw error text is
printed; the CLI adds no distinct timedOut guidance. -/
theorem uniform_failure_report (args : Args) (e p : Option String)
    (w : World) (code : String) (resolved : List (String × String))
    (cd : CompiledData) (err : String)
    (hv : args.version = false) (hh : args.help = false)
    (hne : args.positional ≠ []) (hm : args.mode ∈ validModes)
    (hf : args.format ∈ validFormats)
    (hfile : w.fileContent = Except.ok code)
    (hload : w.loadSolc = Except.ok ())
    (hres : w.resolved = Except.ok resolved)
    (hcomp : w.compileResult = Except.ok cd)
    (hfail : w.analysisIssues = Except.error err) :
    (sabreMain args e p w).output =
      ["Compiled with solc v" ++ w.version ++ " successfully"]
        ++ (if args.debug = true then
              ["-------------------", "MythX Request Body:"]
            else [])
        ++ ["Analysis failed", err] := by
  simp [sabreMain, hv, hh, hne, hm, hf, hfile, hload, hres, hcomp, hfail]

/-- Witness for the C9 amendment at a concrete elapsed-deadline run. -/
theorem uniform_failure_report_witness :
    (sabreMain aOk none none
        { wOk with analysisIssues := Except.error "deadline elapsed" }).output =
      ["Compiled with solc v"
          ++ ({ wOk with analysisIssues := Except.error "deadline elapsed" } : World).version
          ++ " successfully"]
        ++ (if aOk.debug = true then
              ["-------------------", "MythX Request Body:"]
            else [])
        ++ ["Analysis failed", "deadline elapsed"] :=
  uniform_failure_report aOk none none
    { wOk with analysisIssues := Except.error "deadline elapsed" }
    "pragma solidity ^0.5.0;" [("token.sol", "pragma solidity ^0.5.0;")]
    { contractName := "Token" } "deadline elapsed"
    rfl rfl (by decide) (by decide) (by decide) rfl rfl rfl rfl rfl

end Sabre
